import Mathlib

/-!
Verification development for the devlab scenario lifecycle manager.

The Go sources embedded here:
- `internal/scenario/scenario.go` (Manager: StartScenario, GetScenarioStatus,
  GetTerminalURL, StopScenario, parseDirectoryStructure and its helpers);
- `internal/cleanup/cleanup.go` (CleanupManager: CleanupExpiredScenarios,
  CleanupOrphanedContainers, cleanupScenario, getScenarioContainerIDs,
  isScenarioContainer);
- `internal/docker/docker.go` (RealClient: StopContainer, RemoveContainer,
  ContainerExists, GetContainerStatus, GetTerminalURL, findAvailablePort);
- `internal/storage/mongo.go` (Scenario record, GetScenario, StoreScenario,
  UpdateScenario).

Conventions of the embedding: the Mongo store is a list of scenario records,
the Docker engine state is a list of containers; timestamps are naturals
supplied by the caller (`now`); error values are reduced to their sentinel
kind (wrapping with %w preserves the sentinel, a plain fmt.Errorf is
`generic`); daemon-connectivity failures are injected through explicit fault
parameters where the Go code branches on them, and are otherwise absent.
-/

namespace Devlab

/-- Kinds of Go error values used by the embedded code. A value wrapped with
`fmt.Errorf("...: %w", e)` keeps the kind of `e` (errors.Is matches the
sentinel); an error built without a sentinel has kind `generic`. -/
inductive GoErr where
  | scenarioNotFound
  | scenarioNotRunning
  | invalidScenarioID
  | containerNotFound
  | containerNotRunning
  | portUnavailable
  | storageError
  | generic
deriving DecidableEq, Repr

/-- `storage.Scenario` (internal/storage/mongo.go): the persisted record. -/
structure Scenario where
  scenarioID : String
  userID : String
  scenarioType : String
  containerID : String
  status : String
  terminalPort : Nat
  createdAt : Nat
  updatedAt : Nat
deriving DecidableEq, Repr

/-- One binding of an exposed container port (docker NetworkSettings). -/
structure PortBinding where
  hostIP : String
  hostPort : String
deriving DecidableEq, Repr

/-- A container known to the Docker engine: its id, docker status string
("running", "exited", ...) and port map (key "3000/tcp" is the interactive
shell port). -/
structure Container where
  id : String
  status : String
  ports : List (String × List PortBinding)
deriving DecidableEq, Repr

/-- The two independently mutable sources of truth: the Mongo `scenarios`
collection and the Docker engine's container set. -/
structure World where
  store : List Scenario
  runtime : List Container
deriving DecidableEq, Repr

/-! ### Store primitives (internal/storage/mongo.go) -/

/-- `storage.GetScenario`: FindOne by scenario_id. -/
def findScenario (store : List Scenario) (sid : String) : Option Scenario :=
  store.find? (fun s => s.scenarioID == sid)

/-- `storage.UpdateScenario`: UpdateOne by scenario_id with a $set of the
whole record. Modeled as replacing every record carrying that id (ids are
unique in practice; the replacement never changes the id). -/
def updateScenario (store : List Scenario) (u : Scenario) : List Scenario :=
  store.map (fun t => if t.scenarioID = u.scenarioID then u else t)

/-! ### Docker primitives (internal/docker/docker.go, RealClient) -/

/-- `RealClient.ContainerExists`: inspect; not-found means false. -/
def containerExists (rt : List Container) (cid : String) : Bool :=
  rt.any (fun c => c.id == cid)

/-- `RealClient.GetContainerStatus`: inspect and read State.Status;
a failed inspect is ErrContainerNotFound. -/
def getContainerStatus (rt : List Container) (cid : String) : Except GoErr String :=
  match rt.find? (fun c => c.id == cid) with
  | some c => Except.ok c.status
  | none => Except.error GoErr.containerNotFound

/-- `RealClient.StopContainer`: inspect (absent gives ErrContainerNotFound);
a stopped/exited container is removed directly, a running one is stopped and
then removed. Net state effect of success: the container is gone. -/
def stopContainer (rt : List Container) (cid : String) :
    Except GoErr Unit × List Container :=
  if containerExists rt cid then
    (Except.ok (), rt.filter (fun c => c.id != cid))
  else
    (Except.error GoErr.containerNotFound, rt)

/-- `RealClient.RemoveContainer`: inspect (absent gives ErrContainerNotFound),
stop if running, then remove. -/
def removeContainer (rt : List Container) (cid : String) :
    Except GoErr Unit × List Container :=
  if containerExists rt cid then
    (Except.ok (), rt.filter (fun c => c.id != cid))
  else
    (Except.error GoErr.containerNotFound, rt)

/-- The bindings stored under key "3000/tcp" of a container's port map; an
absent key and an empty binding list both come out as `[]` (the Go code
treats both as "port 3000 not mapped"). -/
def port3000Bindings (c : Container) : List PortBinding :=
  match c.ports.find? (fun p => p.1 == "3000/tcp") with
  | some p => p.2
  | none => []

/-- `RealClient.GetTerminalURL`: inspect (absent gives ErrContainerNotFound);
requires docker status "running" (else ErrContainerNotRunning); requires a
binding for port 3000/tcp (else a plain, sentinel-free error: kind
`generic`); otherwise http://hostIP:hostPort with empty host ip replaced by
localhost. -/
def dockerGetTerminalURL (rt : List Container) (cid : String) : Except GoErr String :=
  if cid == "" then Except.error GoErr.generic
  else
    match rt.find? (fun c => c.id == cid) with
    | none => Except.error GoErr.containerNotFound
    | some c =>
      if c.status != "running" then Except.error GoErr.containerNotRunning
      else
        match port3000Bindings c with
        | [] => Except.error GoErr.generic
        | b :: _ =>
          let hostIP := if b.hostIP == "" then "localhost" else b.hostIP
          Except.ok ("http://" ++ hostIP ++ ":" ++ b.hostPort)

/-- `findAvailablePort` (docker.go): probe one port; `avail p` models
`net.Listen("tcp", ":p")` succeeding. -/
def probePorts (avail : Nat → Bool) : List Nat → Except GoErr Nat
  | [] => Except.error GoErr.portUnavailable
  | p :: rest => if avail p then Except.ok p else probePorts avail rest

/-- `findAvailablePort` (docker.go): `for port := 3001; port < 3010; port++`
try to listen; first free port wins, otherwise ErrPortUnavailable. The Go
loop is bounded, which the embedding renders as structural recursion over
the explicit probe list. -/
def findAvailablePort (avail : Nat → Bool) : Except GoErr Nat :=
  probePorts avail [3001, 3002, 3003, 3004, 3005, 3006, 3007, 3008, 3009]

/-- `RealClient.StartScenarioContainer`, abstracted over the engine's
choices: `engineFails` injects any of its failure paths (daemon unreachable,
create/start failure, immediate exit), `newCID` is the id docker assigns and
`newPort` the host port picked by findAvailablePort. On success the engine
holds a new running container whose 3000/tcp port is bound to `newPort` on
0.0.0.0 (the PortBindings the Go code passes to ContainerCreate). -/
def startScenarioContainer (rt : List Container) (scenarioType : String)
    (engineFails : Bool) (newCID : String) (newPort : Nat) :
    Except GoErr (String × Nat) × List Container :=
  if scenarioType == "" then (Except.error GoErr.generic, rt)
  else if engineFails then (Except.error GoErr.generic, rt)
  else
    (Except.ok (newCID, newPort),
     rt ++ [{ id := newCID, status := "running",
              ports := [("3000/tcp", [{ hostIP := "0.0.0.0", hostPort := toString newPort }])] }])

/-! ### Scenario Lifecycle Manager (internal/scenario/scenario.go) -/

/-- `types.StartScenarioRequest`. -/
structure StartRequest where
  userID : String
  scenarioType : String
  script : String
deriving DecidableEq, Repr

/-- `Manager.StartScenario` (scenario.go 38-87). Validates the request,
provisions a container, generates the scenario id (`sid`, abstracting
scn-<unix nano>), persists the record with status "provisioning"; if the
store write fails (`storeFails`), stops the just-created container and
surfaces the error. -/
def startScenario (w : World) (req : StartRequest) (engineFails storeFails : Bool)
    (newCID : String) (newPort : Nat) (sid : String) (now : Nat) :
    Except GoErr (String × String) × World :=
  if req.userID == "" then (Except.error GoErr.generic, w)
  else if req.scenarioType == "" then (Except.error GoErr.generic, w)
  else
    match startScenarioContainer w.runtime req.scenarioType engineFails newCID newPort with
    | (Except.error e, rt1) => (Except.error e, { w with runtime := rt1 })
    | (Except.ok (cid, port), rt1) =>
      let s : Scenario :=
        { scenarioID := sid, userID := req.userID, scenarioType := req.scenarioType,
          containerID := cid, status := "provisioning", terminalPort := port,
          createdAt := now, updatedAt := now }
      if storeFails then
        let rolled := (stopContainer rt1 cid).2
        (Except.error GoErr.storageError, { store := w.store, runtime := rolled })
      else
        (Except.ok (sid, "provisioning"), { store := w.store ++ [s], runtime := rt1 })

/-- `types.ScenarioStatusResponse`. -/
structure StatusResponse where
  scenarioID : String
  userID : String
  scenarioType : String
  containerID : String
  status : String
  containerStatus : String
  message : String
deriving DecidableEq, Repr

/-- `Manager.GetScenarioStatus` (scenario.go 89-189). Loads the record,
checks the container, and reconciles: absent container is authoritative
(status becomes "stopped"); live "running" promotes a "provisioning" record;
live "exited"/"stopped" demotes to "stopped"; anything else keeps the stored
status. Reconciling transitions are persisted. The two branches that return
the stale stored status when a docker call errors are unreachable in this
deterministic engine model. -/
def getScenarioStatus (w : World) (sid : String) (now : Nat) :
    Except GoErr StatusResponse × World :=
  if sid == "" then (Except.error GoErr.invalidScenarioID, w)
  else
    match findScenario w.store sid with
    | none => (Except.error GoErr.scenarioNotFound, w)
    | some s =>
      if !containerExists w.runtime s.containerID then
        let s2 := { s with status := "stopped", updatedAt := now }
        (Except.ok { scenarioID := s.scenarioID, userID := s.userID,
                     scenarioType := s.scenarioType, containerID := s.containerID,
                     status := "stopped", containerStatus := "not_found",
                     message := "Container no longer exists" },
         { w with store := updateScenario w.store s2 })
      else
        match getContainerStatus w.runtime s.containerID with
        | Except.error _ =>
          (Except.ok { scenarioID := s.scenarioID, userID := s.userID,
                       scenarioType := s.scenarioType, containerID := s.containerID,
                       status := s.status, containerStatus := "unknown",
                       message := "Container status unavailable" }, w)
        | Except.ok cs =>
          if cs == "running" && s.status == "provisioning" then
            let s2 := { s with status := "running", updatedAt := now }
            (Except.ok { scenarioID := s.scenarioID, userID := s.userID,
                         scenarioType := s.scenarioType, containerID := s.containerID,
                         status := "running", containerStatus := cs,
                         message := "Scenario status retrieved successfully" },
             { w with store := updateScenario w.store s2 })
          else if cs == "exited" || cs == "stopped" then
            let s2 := { s with status := "stopped", updatedAt := now }
            (Except.ok { scenarioID := s.scenarioID, userID := s.userID,
                         scenarioType := s.scenarioType, containerID := s.containerID,
                         status := "stopped", containerStatus := cs,
                         message := "Scenario status retrieved successfully" },
             { w with store := updateScenario w.store s2 })
          else
            (Except.ok { scenarioID := s.scenarioID, userID := s.userID,
                         scenarioType := s.scenarioType, containerID := s.containerID,
                         status := s.status, containerStatus := cs,
                         message := "Scenario status retrieved successfully" }, w)

/-- `Manager.GetTerminalURL` (scenario.go 191-237). Requires the stored
status to be "running" (else ErrScenarioNotRunning), the container to exist
(else ErrScenarioNotRunning), then delegates to the docker client; the
manager's wrapping of the client error keeps its kind. -/
def getTerminalURL (w : World) (sid : String) : Except GoErr String :=
  if sid == "" then Except.error GoErr.invalidScenarioID
  else
    match findScenario w.store sid with
    | none => Except.error GoErr.scenarioNotFound
    | some s =>
      if s.status != "running" then Except.error GoErr.scenarioNotRunning
      else if !containerExists w.runtime s.containerID then
        Except.error GoErr.scenarioNotRunning
      else dockerGetTerminalURL w.runtime s.containerID

/-- `Manager.StopScenario` (scenario.go 239-279). Loads the record, stops the
container treating ErrContainerNotFound as success, and persists status
"stopped". -/
def stopScenario (w : World) (sid : String) (now : Nat) :
    Except GoErr Unit × World :=
  if sid == "" then (Except.error GoErr.invalidScenarioID, w)
  else
    match findScenario w.store sid with
    | none => (Except.error GoErr.scenarioNotFound, w)
    | some s =>
      let stopped := stopContainer w.runtime s.containerID
      let proceed :=
        match stopped.1 with
        | Except.ok _ => true
        | Except.error e => e == GoErr.containerNotFound
      if proceed then
        let s2 := { s with status := "stopped", updatedAt := now }
        (Except.ok (), { store := updateScenario w.store s2, runtime := stopped.2 })
      else
        match stopped.1 with
        | Except.error e => (Except.error e, { w with runtime := stopped.2 })
        | Except.ok _ => (Except.ok (), { w with runtime := stopped.2 })

/-! ### Cleanup / Reconciliation Worker (internal/cleanup/cleanup.go) -/

/-- `CleanupManager.getScenarioContainerIDs`: the container ids referenced by
stored records, Mongo filter container_id != "" (re-checked in the loop).
Used as a set via membership. -/
def getScenarioContainerIDs (store : List Scenario) : List String :=
  (store.filter (fun s => s.containerID != "")).map Scenario.containerID

/-- `CleanupManager.isScenarioContainer`. -/
def isScenarioContainer (cid : String) (refs : List String) : Bool :=
  refs.contains cid

/-- The runtime effect of `cleanupScenario` (cleanup.go 294-316): if the
record has a container id and the container exists, stop it when its docker
status is "running" (a stop failure is logged and swallowed) and then remove
it (a removal failure is logged and swallowed too). -/
def cleanupScenarioRuntime (rt : List Container) (s : Scenario) : List Container :=
  if s.containerID == "" then rt
  else if containerExists rt s.containerID then
    (removeContainer
      (match getContainerStatus rt s.containerID with
       | Except.ok st =>
         if st == "running" then (stopContainer rt s.containerID).2
         else rt
       | Except.error _ => rt)
      s.containerID).2
  else rt

/-- `CleanupManager.cleanupScenario` (cleanup.go 291-327): best-effort docker
shutdown, then persist status "cleaned_up". `updateFaults` injects
UpdateScenario failures (the only error this function propagates). -/
def cleanupScenario (w : World) (s : Scenario) (now : Nat)
    (updateFaults : List String) : Except GoErr Unit × World :=
  if updateFaults.contains s.scenarioID then
    (Except.error GoErr.storageError,
     { w with runtime := cleanupScenarioRuntime w.runtime s })
  else
    (Except.ok (),
     { store := updateScenario w.store { s with status := "cleaned_up", updatedAt := now },
       runtime := cleanupScenarioRuntime w.runtime s })

/-- The store-side filter of `findExpiredScenarios` (cleanup.go 268-288):
created_at before the cutoff and status in {running, provisioning}. -/
def isExpired (cutoff : Nat) (s : Scenario) : Bool :=
  decide (s.createdAt < cutoff) && (s.status == "running" || s.status == "provisioning")

/-- `CleanupManager.CleanupExpiredScenarios` (cleanup.go 170-197): query the
expired records once, then clean each in turn; a failing cleanupScenario is
logged and the loop continues with the next record. -/
def sweepStep (now : Nat) (updateFaults : List String) (wcur : World)
    (s : Scenario) : World :=
  (cleanupScenario wcur s now updateFaults).2

def cleanupExpiredScenarios (w : World) (cutoff : Nat) (now : Nat)
    (updateFaults : List String) : World :=
  (w.store.filter (isExpired cutoff)).foldl (sweepStep now updateFaults) w

/-- One iteration of the orphan loop of `CleanupOrphanedContainers`
(cleanup.go 217-235) acting on the live runtime `rt` for snapshot entry `c`:
referenced containers are skipped; otherwise StopContainer (a failure,
injected via `stopFaults` for engine-side failures or arising as
ErrContainerNotFound when the container is already gone, is logged and skips
the removal) and then RemoveContainer (failure logged). -/
def orphanStep (refs stopFaults : List String) (rt : List Container)
    (c : Container) : List Container :=
  if isScenarioContainer c.id refs then rt
  else if stopFaults.contains c.id then rt
  else
    let stopped := stopContainer rt c.id
    match stopped.1 with
    | Except.error _ => stopped.2
    | Except.ok _ => (removeContainer stopped.2 c.id).2

/-- `CleanupManager.CleanupOrphanedContainers` (cleanup.go 200-239): list the
containers once, compute the referenced-id set, then stop and remove every
unreferenced container, continuing past per-container failures. -/
def cleanupOrphanedContainers (w : World) (stopFaults : List String) : World :=
  let refs := getScenarioContainerIDs w.store
  { w with runtime := w.runtime.foldl (orphanStep refs stopFaults) w.runtime }

/-! ### Directory Tree Builder (scenario.go 339-455) -/

/-- `types.FileNode`. -/
structure FileNode where
  path : String
  type : String
  isRoot : Bool
  children : List String
  content : String
  isOpen : Bool
  isSaved : Bool
deriving DecidableEq, Repr

/-- The whitespace class of Go's unicode.IsSpace, as used by strings.Fields
and strings.TrimSpace (Latin-1 range). -/
def goIsSpace (ch : Char) : Bool :=
  ch == ' ' || ch == '\t' || ch == '\n' || ch == '\u000b' || ch == '\u000c' ||
  ch == '\r' || ch == '\u0085' || ch == '\u00a0'

/-- `strings.TrimSpace`. -/
def goTrimSpace (s : String) : String :=
  List.asString (((s.toList.dropWhile goIsSpace).reverse.dropWhile goIsSpace).reverse)

/-- `strings.Split(s, "\n")` on the character list: cut at every newline,
keeping empty pieces (Split of "" is [""]). -/
def splitNlAux : List Char → List Char → List (List Char)
  | [], acc => [acc.reverse]
  | ch :: rest, acc =>
    if ch == '\n' then acc.reverse :: splitNlAux rest []
    else splitNlAux rest (ch :: acc)

/-- `strings.Split(s, "\n")`. -/
def splitLines (s : String) : List String :=
  (splitNlAux s.toList []).map List.asString

/-- `strings.Fields`: maximal runs of non-space characters. -/
def fieldsAux : List Char → List Char → List (List Char)
  | [], acc => if acc.isEmpty then [] else [acc.reverse]
  | ch :: rest, acc =>
    if goIsSpace ch then
      if acc.isEmpty then fieldsAux rest []
      else acc.reverse :: fieldsAux rest []
    else fieldsAux rest (ch :: acc)

/-- `strings.Fields`. -/
def goFields (s : String) : List String :=
  (fieldsAux s.toList []).map List.asString

/-- `strings.HasPrefix` (structural, so that concrete evaluation reduces). -/
def goStartsWith (s pre : String) : Bool :=
  pre.toList.isPrefixOf s.toList

/-- The denylist of `shouldSkipPath` (scenario.go 423-455). -/
def cachePatterns : List String :=
  ["/home/devlab/.cache", "/home/devlab/go/pkg/mod", "/home/devlab/.config",
   "/home/devlab/.local", "/home/devlab/.npm", "/home/devlab/.pip",
   "/home/devlab/.conda", "/home/devlab/.m2", "/home/devlab/.gradle",
   "/home/devlab/.ivy2", "/home/devlab/.sbt", "/home/devlab/.cargo",
   "/home/devlab/.rustup", "/home/devlab/.node_modules", "/home/devlab/.yarn",
   "/home/devlab/.bundle", "/home/devlab/.gem", "/home/devlab/.pub-cache",
   "/home/devlab/.dart", "/home/devlab/.flutter"]

/-- `shouldSkipPath`: any denylisted prefix. -/
def shouldSkipPath (path : String) : Bool :=
  cachePatterns.any (fun pat => goStartsWith path pat)

/-- `getNodeType`: d maps to folder, f to file, anything else to file. -/
def getNodeType (findType : String) : String :=
  if findType == "d" then "folder"
  else if findType == "f" then "file"
  else "file"

/-- `filepath.Dir` for the slash-separated paths this code handles: drop the
final component, strip trailing slashes; no slash at all gives ".", a bare
root gives "/". (The dot-segment cleaning of the full filepath.Clean is not
needed for find(1) output.) -/
def goDir (p : String) : String :=
  let revDirPart := p.toList.reverse.dropWhile (fun ch => ch != '/')
  match revDirPart with
  | [] => "."
  | _ =>
    let trimmed := revDirPart.dropWhile (fun ch => ch == '/')
    match trimmed with
    | [] => "/"
    | _ => List.asString trimmed.reverse

/-- `getParentPath` (scenario.go 414-420). -/
def getParentPath (path : String) : String :=
  let dir := goDir path
  if dir == "." then "/home/devlab" else dir

/-- The body of the first-pass loop of `parseDirectoryStructure` for one
line: skip blank lines, lines without exactly two fields, paths outside
/home/devlab and denylisted paths; otherwise the node (children empty, to be
linked by the second pass). -/
def parseLine (line : String) : Option FileNode :=
  if goTrimSpace line == "" then none
  else
    match goFields line with
    | [path, fileType] =>
      if goStartsWith path "/home/devlab" then
        if shouldSkipPath path then none
        else
          some { path := path, type := getNodeType fileType,
                 isRoot := path == "/home/devlab", children := [],
                 content := "", isOpen := false, isSaved := true }
      else none
    | _ => none

/-- `pathMap[path] = node`: last write wins, insertion order kept. -/
def pmInsert (pm : List (String × FileNode)) (key : String) (node : FileNode) :
    List (String × FileNode) :=
  if pm.any (fun e => e.1 == key) then
    pm.map (fun e => if e.1 == key then (key, node) else e)
  else pm ++ [(key, node)]

/-- First pass of `parseDirectoryStructure` (scenario.go 349-384): build the
`structure` slice and the `pathMap` over the lines. Each accepted node is
appended BY VALUE to the slice and stored BY POINTER in the map — the slice
entries are copies taken before any child is linked. -/
def firstPass (lines : List String) : List FileNode × List (String × FileNode) :=
  lines.foldl
    (fun acc line =>
      match parseLine line with
      | none => acc
      | some node => (acc.1 ++ [node], pmInsert acc.2 node.path node))
    ([], [])

/-- `parent.Children = append(parent.Children, path)` on the pathMap. -/
def appendChild (pm : List (String × FileNode)) (parentPath childPath : String) :
    List (String × FileNode) :=
  pm.map (fun e =>
    if e.1 == parentPath then
      (e.1, { e.2 with children := e.2.children ++ [childPath] })
    else e)

/-- Second pass of `parseDirectoryStructure` (scenario.go 386-396): for every
non-root key of the pathMap, append its path to its parent's children list in
the pathMap, when the parent is present. Go iterates the map in unspecified
order; the embedding iterates in insertion order (the caller discards this
map, so the output does not depend on the choice). -/
def secondPass (pm : List (String × FileNode)) : List (String × FileNode) :=
  (pm.map Prod.fst).foldl
    (fun acc path =>
      if path == "/home/devlab" then acc
      else if acc.any (fun e => e.1 == getParentPath path) then
        appendChild acc (getParentPath path) path
      else acc)
    pm

/-- `parseDirectoryStructure` (scenario.go 340-399): trim, split into lines,
run the two passes, and return the `structure` slice with a nil error. Note
that the slice holds the pre-second-pass copies, so the children computed
into the pathMap never reach the returned value. -/
def parseDirectoryStructure (output : String) : Except String (List FileNode) :=
  let lines := splitLines (goTrimSpace output)
  if lines.length == 0 then Except.ok []
  else
    let fp := firstPass lines
    let _linked := secondPass fp.2
    Except.ok fp.1

/-! ### Helper lemmas -/

theorem any_filter_ne {α : Type} (l : List α) (f : α → String) (cid : String) :
    (l.filter (fun x => f x != cid)).any (fun x => f x == cid) = false := by
  induction l with
  | nil => rfl
  | cons a l ih =>
    by_cases h : f a = cid
    · simp [List.filter_cons, h, ih]
    · simp [List.filter_cons, h, ih]

theorem containerExists_filter_self (rt : List Container) (cid : String) :
    containerExists (rt.filter (fun c => c.id != cid)) cid = false :=
  any_filter_ne rt Container.id cid

theorem filter_ne_of_not_exists (rt : List Container) (cid : String)
    (h : containerExists rt cid = false) :
    rt.filter (fun c => c.id != cid) = rt := by
  rw [List.filter_eq_self]
  intro c hc
  simp only [containerExists, List.any_eq_false, beq_iff_eq] at h
  simpa using h c hc

theorem findScenario_update_self (store : List Scenario) (u : Scenario)
    (h : (findScenario store u.scenarioID).isSome) :
    findScenario (updateScenario store u) u.scenarioID = some u := by
  induction store with
  | nil => simp [findScenario] at h
  | cons t rest ih =>
    by_cases ht : t.scenarioID = u.scenarioID
    · simp [findScenario, updateScenario, List.find?_cons, ht]
    · have h2 : (findScenario rest u.scenarioID).isSome := by
        simpa [findScenario, List.find?_cons, ht] using h
      simpa [findScenario, updateScenario, List.find?_cons, ht] using ih h2

theorem findScenario_update_ne (store : List Scenario) (u : Scenario) (sid : String)
    (h : u.scenarioID ≠ sid) :
    findScenario (updateScenario store u) sid = findScenario store sid := by
  induction store with
  | nil => rfl
  | cons t rest ih =>
    have hhead : updateScenario (t :: rest) u =
        (if t.scenarioID = u.scenarioID then u else t) :: updateScenario rest u := rfl
    by_cases ht : t.scenarioID = u.scenarioID
    · have ht2 : t.scenarioID ≠ sid := by rw [ht]; exact h
      rw [findScenario, hhead, if_pos ht, List.find?_cons_of_neg _ (by simpa using h),
        findScenario, List.find?_cons_of_neg _ (by simpa using ht2)]
      exact ih
    · by_cases hts : t.scenarioID = sid
      · rw [findScenario, hhead, if_neg ht, List.find?_cons_of_pos _ (by simpa using hts),
          findScenario, List.find?_cons_of_pos _ (by simpa using hts)]
      · rw [findScenario, hhead, if_neg ht, List.find?_cons_of_neg _ (by simpa using hts),
          findScenario, List.find?_cons_of_neg _ (by simpa using hts)]
        exact ih

theorem updateScenario_map_id (store : List Scenario) (u : Scenario) :
    (updateScenario store u).map Scenario.scenarioID = store.map Scenario.scenarioID := by
  induction store with
  | nil => rfl
  | cons t rest ih =>
    by_cases ht : t.scenarioID = u.scenarioID
    · simpa [updateScenario, ht] using ih
    · simpa [updateScenario, ht] using ih

theorem findScenario_isSome_iff (store : List Scenario) (sid : String) :
    (findScenario store sid).isSome ↔ sid ∈ store.map Scenario.scenarioID := by
  induction store with
  | nil => simp [findScenario]
  | cons t rest ih =>
    by_cases ht : t.scenarioID = sid
    · rw [findScenario, show (List.find? (fun s => s.scenarioID == sid) (t :: rest)) = some t
        from List.find?_cons_of_pos _ (by simpa using ht)]
      simp [ht]
    · rw [findScenario, List.find?_cons_of_neg _ (by simpa using ht)]
      rw [findScenario] at ih
      simp [ih, Ne.symm ht]

/-! ### Claim C8: bounded port probing -/

theorem probePorts_spec (avail : Nat → Bool) (l : List Nat) :
    (∃ p, probePorts avail l = Except.ok p ∧ p ∈ l ∧ avail p = true) ∨
    (probePorts avail l = Except.error GoErr.portUnavailable ∧
      ∀ p ∈ l, avail p = false) := by
  induction l with
  | nil => exact Or.inr ⟨rfl, by simp⟩
  | cons p rest ih =>
    by_cases h : avail p = true
    · exact Or.inl ⟨p, by simp [probePorts, h], by simp, h⟩
    · have h' : avail p = false := by simpa using h
      rcases ih with ⟨q, hq, hmem, hav⟩ | ⟨herr, hall⟩
      · exact Or.inl ⟨q, by simp [probePorts, h', hq], by simp [hmem], hav⟩
      · refine Or.inr ⟨by simp [probePorts, h', herr], ?_⟩
        intro x hx
        rcases List.mem_cons.mp hx with hx | hx
        · simpa [hx] using h'
        · exact hall x hx

/-- Claim C8: host-port allocation probes only the bounded range 3001..3009
and terminates (the embedding of the Go loop is structural recursion over
that finite list): for every availability of ports it either returns an
available port from the range, or fails with the port-exhausted kind
(ErrPortUnavailable) with every port of the range unavailable. -/
theorem findAvailablePort_bounded (avail : Nat → Bool) :
    (∃ p, findAvailablePort avail = Except.ok p ∧ 3001 ≤ p ∧ p ≤ 3009 ∧ avail p = true) ∨
    (findAvailablePort avail = Except.error GoErr.portUnavailable ∧
      ∀ p, 3001 ≤ p → p ≤ 3009 → avail p = false) := by
  rcases probePorts_spec avail [3001, 3002, 3003, 3004, 3005, 3006, 3007, 3008, 3009]
    with ⟨p, hok, hmem, hav⟩ | ⟨herr, hall⟩
  · refine Or.inl ⟨p, hok, ?_, ?_, hav⟩ <;>
    · simp only [List.mem_cons, List.not_mem_nil, or_false] at hmem
      omega
  · refine Or.inr ⟨herr, fun p h1 h2 => hall p ?_⟩
    interval_cases p <;> simp

/-! ### The Directory Tree Builder's output -/

theorem firstPass_fst_go (lines : List String) :
    ∀ acc : List FileNode × List (String × FileNode),
    (lines.foldl
      (fun acc line =>
        match parseLine line with
        | none => acc
        | some node => (acc.1 ++ [node], pmInsert acc.2 node.path node)) acc).1
      = acc.1 ++ lines.filterMap parseLine := by
  induction lines with
  | nil => intro acc; simp
  | cons line rest ih =>
    intro acc
    cases h : parseLine line with
    | none => simp [List.foldl_cons, h, ih acc, List.filterMap_cons]
    | some node => simp [List.foldl_cons, h, ih, List.filterMap_cons]

theorem firstPass_fst (lines : List String) :
    (firstPass lines).1 = lines.filterMap parseLine := by
  simpa using firstPass_fst_go lines ([], [])

theorem splitNlAux_ne_nil (l : List Char) (acc : List Char) :
    splitNlAux l acc ≠ [] := by
  induction l generalizing acc with
  | nil => simp [splitNlAux]
  | cons ch rest ih =>
    by_cases h : ch = '\n'
    · simp [splitNlAux, h]
    · simpa [splitNlAux, h] using ih (ch :: acc)

theorem splitLines_ne_nil (s : String) : splitLines s ≠ [] := by
  simpa [splitLines] using splitNlAux_ne_nil s.toList []

/-- The builder never errors and its output is the per-line node of every
surviving line, in line order: the children linked by the second pass stay
in the discarded pathMap. -/
theorem parseDirectoryStructure_eq (output : String) :
    parseDirectoryStructure output =
      Except.ok ((splitLines (goTrimSpace output)).filterMap parseLine) := by
  unfold parseDirectoryStructure
  have h0 : ((splitLines (goTrimSpace output)).length == 0) = false := by
    have := splitLines_ne_nil (goTrimSpace output)
    simpa [List.length_eq_zero] using this
  simp [h0, firstPass_fst]

/-- Claim C10: the Directory Tree Builder is total and never reports failure:
for every input string the error result is nil (`Except.ok`) and its value is
the accepted-line nodes; a line that is blank or does not have exactly two
whitespace-separated fields, and a two-field line whose path is outside
/home/devlab or matches the denylist, are skipped without producing a node
or an error. -/
theorem parseDirectoryStructure_total :
    (∀ output, parseDirectoryStructure output =
        Except.ok ((splitLines (goTrimSpace output)).filterMap parseLine)) ∧
    (∀ line, (goFields line).length ≠ 2 → parseLine line = none) ∧
    (∀ line path fileType, goFields line = [path, fileType] →
        (goStartsWith path "/home/devlab" = false ∨ shouldSkipPath path = true) →
        parseLine line = none) := by
  refine ⟨parseDirectoryStructure_eq, ?_, ?_⟩
  · intro line h
    unfold parseLine
    split
    · rfl
    · match hf : goFields line with
      | [] => rfl
      | [a] => rfl
      | [a, b] => exact absurd (by rw [hf] ; rfl) h
      | a :: b :: c :: l => rfl
  · intro line path fileType hf hbad
    unfold parseLine
    split
    · rfl
    · rw [hf]
      rcases hbad with hb | hb
      · simp [hb]
      · simp [hb]

/-- Claim C9: the Directory Tree Builder is order-insensitive: listings that
are permutations of one another produce permuted outputs, hence the same set
of nodes, each with the same path, type, root flag and children (children
are compared trivially: the returned copies all hold the empty list). -/
theorem parseDirectoryStructure_orderInsensitive (out1 out2 : String)
    (h : (splitLines (goTrimSpace out1)).Perm (splitLines (goTrimSpace out2))) :
    ∃ r1 r2, parseDirectoryStructure out1 = Except.ok r1 ∧
      parseDirectoryStructure out2 = Except.ok r2 ∧ r1.Perm r2 ∧
      ∀ n, n ∈ r1 ↔ n ∈ r2 := by
  refine ⟨_, _, parseDirectoryStructure_eq out1, parseDirectoryStructure_eq out2, ?_, ?_⟩
  · exact h.filterMap parseLine
  · intro n
    exact (h.filterMap parseLine).mem_iff

/-- Witness for C9 at a concrete two-line listing and its transposition. -/
theorem parseDirectoryStructure_orderInsensitive_wit :
    ∃ r1 r2,
      parseDirectoryStructure "/home/devlab d\n/home/devlab/a f" = Except.ok r1 ∧
      parseDirectoryStructure "/home/devlab/a f\n/home/devlab d" = Except.ok r2 ∧
      r1.Perm r2 ∧ ∀ n, n ∈ r1 ↔ n ∈ r2 :=
  parseDirectoryStructure_orderInsensitive _ _ (by decide)

/-- Claim C5 (evidence of the defect): on the spec's four-entry listing the
function returns the root and the three descendants all carrying EMPTY
children lists — the first pass appends each node to the result slice by
value before the second pass links children into the pointer-holding
pathMap, so the links never reach the returned slice; the discarded pathMap
does hold the expected children (root maps to a and b). -/
theorem parseDirectoryStructure_childrenLost :
    parseDirectoryStructure
        "/home/devlab d\n/home/devlab/a f\n/home/devlab/b d\n/home/devlab/b/c f" =
      Except.ok
        [{ path := "/home/devlab", type := "folder", isRoot := true,
           children := [], content := "", isOpen := false, isSaved := true },
         { path := "/home/devlab/a", type := "file", isRoot := false,
           children := [], content := "", isOpen := false, isSaved := true },
         { path := "/home/devlab/b", type := "folder", isRoot := false,
           children := [], content := "", isOpen := false, isSaved := true },
         { path := "/home/devlab/b/c", type := "file", isRoot := false,
           children := [], content := "", isOpen := false, isSaved := true }] ∧
    (secondPass (firstPass (splitLines (goTrimSpace
        "/home/devlab d\n/home/devlab/a f\n/home/devlab/b d\n/home/devlab/b/c f"))).2).map
        (fun e => (e.1, e.2.children)) =
      [("/home/devlab", ["/home/devlab/a", "/home/devlab/b"]),
       ("/home/devlab/a", []),
       ("/home/devlab/b", ["/home/devlab/b/c"]),
       ("/home/devlab/b/c", [])] :=
  ⟨by rfl, by rfl⟩

/-! ### Claim C7: terminal URL error kinds -/

theorem containerExists_eq_isSome (rt : List Container) (cid : String) :
    containerExists rt cid = (rt.find? (fun c => c.id == cid)).isSome := by
  induction rt with
  | nil => rfl
  | cons c rest ih =>
    by_cases h : c.id = cid
    · have hb : (c.id == cid) = true := by simpa using h
      simp [containerExists, List.any_cons, hb, List.find?_cons_of_pos _ hb]
    · have hb : (c.id == cid) = false := by simpa using h
      rw [containerExists, List.any_cons, hb,
        List.find?_cons_of_neg _ (by simp [hb])]
      simpa [containerExists] using ih

/-- The world of the C7 counterexample: the record says "running", the
container exists and runs, but no 3000/tcp port binding is present. -/
def noMappingWorld : World :=
  { store := [{ scenarioID := "scn-1", userID := "u1", scenarioType := "go",
                containerID := "c1", status := "running", terminalPort := 3001,
                createdAt := 0, updatedAt := 0 }],
    runtime := [{ id := "c1", status := "running", ports := [] }] }

/-- Claim C7 counterexample: with the stored status "running" and the
container present and running but lacking a 3000/tcp mapping, GetTerminalURL
fails with a sentinel-free generic error ("port 3000 not mapped ..."), not
with the NotRunning kind the claim asserts for this case. -/
theorem getTerminalURL_noMapping_generic :
    getTerminalURL noMappingWorld "scn-1" = Except.error GoErr.generic ∧
    GoErr.generic ≠ GoErr.scenarioNotRunning :=
  ⟨by rfl, by decide⟩

/-- Claim C7 (amended): GetTerminalURL fails with the NotRunning kind when
the stored status is not "running" and when the container no longer exists;
when the container exists with docker status "running" but has no port
binding for the internal port 3000 it fails with a generic error that is NOT
of the NotRunning kind; and an address is returned in no other way (only
with stored status "running", an existing container with docker status
"running", and a 3000/tcp binding). -/
theorem getTerminalURL_amended (w : World) (sid : String) (s : Scenario)
    (hsid : sid ≠ "") (h : findScenario w.store sid = some s) :
    (s.status ≠ "running" →
      getTerminalURL w sid = Except.error GoErr.scenarioNotRunning) ∧
    (s.status = "running" → containerExists w.runtime s.containerID = false →
      getTerminalURL w sid = Except.error GoErr.scenarioNotRunning) ∧
    (∀ c, s.status = "running" →
      w.runtime.find? (fun d => d.id == s.containerID) = some c →
      c.status = "running" → port3000Bindings c = [] →
      getTerminalURL w sid = Except.error GoErr.generic) ∧
    (∀ url, getTerminalURL w sid = Except.ok url →
      s.status = "running" ∧
      ∃ c, w.runtime.find? (fun d => d.id == s.containerID) = some c ∧
        c.status = "running" ∧ port3000Bindings c ≠ []) := by
  have hsid2 : (sid == "") = false := by simpa using hsid
  refine ⟨?_, ?_, ?_, ?_⟩
  · intro hst
    simp [getTerminalURL, hsid2, h, hst]
  · intro hst hex
    simp [getTerminalURL, hsid2, h, hst, hex]
  · intro c hst hfind hcst hports
    have hex : containerExists w.runtime s.containerID = true := by
      rw [containerExists_eq_isSome, hfind]; rfl
    by_cases hcid : s.containerID = ""
    · rw [hcid] at hex
      simp [getTerminalURL, hsid2, h, hst, hex, dockerGetTerminalURL, hcid]
    · have hcid2 : (s.containerID == "") = false := by simpa using hcid
      simp [getTerminalURL, hsid2, h, hst, hex, dockerGetTerminalURL, hcid2,
        hfind, hcst, hports]
  · intro url hok
    have hrun : getTerminalURL w sid =
        (if s.status != "running" then Except.error GoErr.scenarioNotRunning
         else if !containerExists w.runtime s.containerID then
           Except.error GoErr.scenarioNotRunning
         else dockerGetTerminalURL w.runtime s.containerID) := by
      simp [getTerminalURL, hsid2, h]
    rw [hrun] at hok
    by_cases hst : s.status = "running"
    · refine ⟨hst, ?_⟩
      rw [if_neg (by simp [hst])] at hok
      by_cases hex : containerExists w.runtime s.containerID = true
      · rw [if_neg (by simp [hex])] at hok
        by_cases hcid : s.containerID = ""
        · rw [dockerGetTerminalURL, if_pos (by simpa using hcid)] at hok
          exact absurd hok (by simp)
        · have hcid2 : (s.containerID == "") = false := by simpa using hcid
          cases hfind : w.runtime.find? (fun d => d.id == s.containerID) with
          | none =>
            rw [dockerGetTerminalURL, if_neg (by simp [hcid2]), hfind] at hok
            simp at hok
          | some c =>
            rw [dockerGetTerminalURL, if_neg (by simp [hcid2]), hfind] at hok
            simp only [] at hok
            have hcst : c.status = "running" := by
              by_contra hcst
              rw [if_pos (by simpa using hcst)] at hok
              exact absurd hok (by simp)
            refine ⟨c, rfl, hcst, ?_⟩
            intro hports
            rw [if_neg (by simp [hcst])] at hok
            simp [hports] at hok
      · rw [if_pos (by simpa using hex)] at hok
        exact absurd hok (by simp)
    · rw [if_pos (by simpa using hst)] at hok
      exact absurd hok (by simp)

/-- Witness for the amended C7 at a concrete provisioning scenario: the
status is not "running", so the call fails with the NotRunning kind. -/
theorem getTerminalURL_amended_wit :
    getTerminalURL
        { store := [{ scenarioID := "scn-2", userID := "u1", scenarioType := "go",
                      containerID := "c2", status := "provisioning",
                      terminalPort := 3001, createdAt := 0, updatedAt := 0 }],
          runtime := [] } "scn-2" =
      Except.error GoErr.scenarioNotRunning :=
  (getTerminalURL_amended _ "scn-2" _ (by decide) (by rfl)).1 (by decide)

/-! ### Claim C2: rollback when persistence fails -/

/-- Claim C2: when the engine has created the container and persisting the
record then fails, StartScenario stops the just-created container before
surfacing the error: the call errors, the store is unchanged, the new
container is absent from the final runtime, and when its id was fresh the
runtime is exactly what it was before the call. -/
theorem startScenario_rollback (w : World) (req : StartRequest)
    (newCID : String) (newPort : Nat) (sid : String) (now : Nat)
    (hU : req.userID ≠ "") (hT : req.scenarioType ≠ "") :
    (∃ e, (startScenario w req false true newCID newPort sid now).1 =
      Except.error e) ∧
    (startScenario w req false true newCID newPort sid now).2.store = w.store ∧
    containerExists
      (startScenario w req false true newCID newPort sid now).2.runtime newCID
      = false ∧
    (containerExists w.runtime newCID = false →
      (startScenario w req false true newCID newPort sid now).2.runtime
        = w.runtime) := by
  have hU2 : (req.userID == "") = false := by simpa using hU
  have hT2 : (req.scenarioType == "") = false := by simpa using hT
  set newC : Container :=
    { id := newCID, status := "running",
      ports := [("3000/tcp", [{ hostIP := "0.0.0.0", hostPort := toString newPort }])] }
    with hnewC
  have hex : containerExists (w.runtime ++ [newC]) newCID = true := by
    simp [containerExists, hnewC]
  have hrun : (startScenario w req false true newCID newPort sid now).2.runtime =
      (w.runtime ++ [newC]).filter (fun c => c.id != newCID) := by
    simp [startScenario, startScenarioContainer, hU2, hT2, stopContainer, hex]
  refine ⟨⟨GoErr.storageError, ?_⟩, ?_, ?_, ?_⟩
  · simp [startScenario, startScenarioContainer, hU2, hT2]
  · simp [startScenario, startScenarioContainer, hU2, hT2]
  · rw [hrun]; exact containerExists_filter_self _ newCID
  · intro hfresh
    rw [hrun, List.filter_append, filter_ne_of_not_exists w.runtime newCID hfresh]
    simp [hnewC]

/-- Witness for C2: empty world, a valid request, a failing store write. -/
theorem startScenario_rollback_wit :
    (∃ e, (startScenario ⟨[], []⟩ ⟨"u1", "go", ""⟩ false true "c9" 3001 "scn-9" 5).1 =
      Except.error e) ∧
    (startScenario ⟨[], []⟩ ⟨"u1", "go", ""⟩ false true "c9" 3001 "scn-9" 5).2.store = [] ∧
    containerExists
      (startScenario ⟨[], []⟩ ⟨"u1", "go", ""⟩ false true "c9" 3001 "scn-9" 5).2.runtime "c9"
      = false ∧
    (containerExists [] "c9" = false →
      (startScenario ⟨[], []⟩ ⟨"u1", "go", ""⟩ false true "c9" 3001 "scn-9" 5).2.runtime = []) :=
  startScenario_rollback ⟨[], []⟩ ⟨"u1", "go", ""⟩ "c9" 3001 "scn-9" 5
    (by decide) (by decide)

/-! ### Claim C6: StopScenario is idempotent -/

theorem findScenario_some_id (store : List Scenario) (sid : String) (s : Scenario)
    (h : findScenario store sid = some s) : s.scenarioID = sid := by
  have := List.find?_some h
  simpa using this

/-- One successful StopScenario run: for any world holding the record, the
call succeeds (an absent container is treated as success) and the persisted
record afterwards is the record with status "stopped". -/
theorem stopScenario_ok (w : World) (sid : String) (s : Scenario) (now : Nat)
    (hsid : sid ≠ "") (h : findScenario w.store sid = some s) :
    (stopScenario w sid now).1 = Except.ok () ∧
    findScenario (stopScenario w sid now).2.store sid =
      some { s with status := "stopped", updatedAt := now } := by
  have hsid2 : (sid == "") = false := by simpa using hsid
  have hid : s.scenarioID = sid := findScenario_some_id w.store sid s h
  have hfind2 : findScenario (updateScenario w.store
      { s with status := "stopped", updatedAt := now }) sid =
      some { s with status := "stopped", updatedAt := now } := by
    have hsome : (findScenario w.store
        (Scenario.scenarioID { s with status := "stopped", updatedAt := now })).isSome := by
      simp only [hid]
      rw [h]; rfl
    have := findScenario_update_self w.store
      { s with status := "stopped", updatedAt := now } hsome
    simpa [hid] using this
  by_cases hex : containerExists w.runtime s.containerID = true
  · constructor
    · simp [stopScenario, hsid2, h, stopContainer, hex]
    · simpa [stopScenario, hsid2, h, stopContainer, hex] using hfind2
  · have hex2 : containerExists w.runtime s.containerID = false := by simpa using hex
    constructor
    · simp [stopScenario, hsid2, h, stopContainer, hex2]
    · simpa [stopScenario, hsid2, h, stopContainer, hex2] using hfind2

/-- Claim C6: StopScenario is idempotent for every existing record: the first
call succeeds and persists "stopped" even when the container had already
vanished (any runtime is allowed, including one without the container), and
a second call on the resulting world succeeds again and leaves the persisted
status "stopped". -/
theorem stopScenario_idempotent (w : World) (sid : String) (s : Scenario)
    (now1 now2 : Nat) (hsid : sid ≠ "") (h : findScenario w.store sid = some s) :
    (stopScenario w sid now1).1 = Except.ok () ∧
    findScenario (stopScenario w sid now1).2.store sid =
      some { s with status := "stopped", updatedAt := now1 } ∧
    (stopScenario (stopScenario w sid now1).2 sid now2).1 = Except.ok () ∧
    findScenario (stopScenario (stopScenario w sid now1).2 sid now2).2.store sid =
      some { s with status := "stopped", updatedAt := now2 } := by
  obtain ⟨h1, h2⟩ := stopScenario_ok w sid s now1 hsid h
  obtain ⟨h3, h4⟩ := stopScenario_ok (stopScenario w sid now1).2 sid
    { s with status := "stopped", updatedAt := now1 } now2 hsid h2
  exact ⟨h1, h2, h3, h4⟩

/-- Witness for C6: a world with one running record and its container. -/
theorem stopScenario_idempotent_wit :
    (stopScenario
      { store := [{ scenarioID := "scn-3", userID := "u1", scenarioType := "go",
                    containerID := "c3", status := "running", terminalPort := 3001,
                    createdAt := 0, updatedAt := 0 }],
        runtime := [{ id := "c3", status := "running", ports := [] }] }
      "scn-3" 7).1 = Except.ok () ∧
    findScenario (stopScenario
      { store := [{ scenarioID := "scn-3", userID := "u1", scenarioType := "go",
                    containerID := "c3", status := "running", terminalPort := 3001,
                    createdAt := 0, updatedAt := 0 }],
        runtime := [{ id := "c3", status := "running", ports := [] }] }
      "scn-3" 7).2.store "scn-3" =
      some { scenarioID := "scn-3", userID := "u1", scenarioType := "go",
             containerID := "c3", status := "stopped", terminalPort := 3001,
             createdAt := 0, updatedAt := 7 } ∧
    (stopScenario (stopScenario
      { store := [{ scenarioID := "scn-3", userID := "u1", scenarioType := "go",
                    containerID := "c3", status := "running", terminalPort := 3001,
                    createdAt := 0, updatedAt := 0 }],
        runtime := [{ id := "c3", status := "running", ports := [] }] }
      "scn-3" 7).2 "scn-3" 9).1 = Except.ok () ∧
    findScenario (stopScenario (stopScenario
      { store := [{ scenarioID := "scn-3", userID := "u1", scenarioType := "go",
                    containerID := "c3", status := "running", terminalPort := 3001,
                    createdAt := 0, updatedAt := 0 }],
        runtime := [{ id := "c3", status := "running", ports := [] }] }
      "scn-3" 7).2 "scn-3" 9).2.store "scn-3" =
      some { scenarioID := "scn-3", userID := "u1", scenarioType := "go",
             containerID := "c3", status := "stopped", terminalPort := 3001,
             createdAt := 0, updatedAt := 9 } :=
  stopScenario_idempotent _ "scn-3" _ 7 9 (by decide) (by rfl)

/-! ### Claim C1: the reconciliation rule of GetScenarioStatus -/

/-- Claim C1: for every record that GetScenarioStatus finds, the returned and
persisted status follows the reconciliation rule: an absent container is
authoritative and yields "stopped" whatever was stored; otherwise a live
"running" container promotes a "provisioning" record to "running", a live
"exited" or "stopped" container demotes to "stopped", and any other
combination keeps the stored status (and writes nothing). -/
theorem getScenarioStatus_reconciliation (w : World) (sid : String) (s : Scenario)
    (now : Nat) (hsid : sid ≠ "") (h : findScenario w.store sid = some s) :
    (containerExists w.runtime s.containerID = false →
      (getScenarioStatus w sid now).1.map StatusResponse.status = Except.ok "stopped" ∧
      findScenario (getScenarioStatus w sid now).2.store sid =
        some { s with status := "stopped", updatedAt := now }) ∧
    (∀ c, w.runtime.find? (fun d => d.id == s.containerID) = some c →
      ((c.status = "running" ∧ s.status = "provisioning") →
        (getScenarioStatus w sid now).1.map StatusResponse.status = Except.ok "running" ∧
        findScenario (getScenarioStatus w sid now).2.store sid =
          some { s with status := "running", updatedAt := now }) ∧
      ((c.status = "exited" ∨ c.status = "stopped") →
        (getScenarioStatus w sid now).1.map StatusResponse.status = Except.ok "stopped" ∧
        findScenario (getScenarioStatus w sid now).2.store sid =
          some { s with status := "stopped", updatedAt := now }) ∧
      (¬(c.status = "running" ∧ s.status = "provisioning") →
        ¬(c.status = "exited" ∨ c.status = "stopped") →
        (getScenarioStatus w sid now).1.map StatusResponse.status = Except.ok s.status ∧
        findScenario (getScenarioStatus w sid now).2.store sid = some s)) := by
  have hsid2 : (sid == "") = false := by simpa using hsid
  have hid : s.scenarioID = sid := findScenario_some_id w.store sid s h
  have hupd : ∀ st : String,
      findScenario (updateScenario w.store { s with status := st, updatedAt := now }) sid =
        some { s with status := st, updatedAt := now } := by
    intro st
    have hsome : (findScenario w.store
        (Scenario.scenarioID { s with status := st, updatedAt := now })).isSome := by
      simp only [hid]
      rw [h]; rfl
    have := findScenario_update_self w.store { s with status := st, updatedAt := now } hsome
    simpa [hid] using this
  constructor
  · intro hex
    constructor
    · simp [getScenarioStatus, hsid2, h, hex, Except.map]
    · simpa [getScenarioStatus, hsid2, h, hex] using hupd "stopped"
  · intro c hfind
    have hex : containerExists w.runtime s.containerID = true := by
      rw [containerExists_eq_isSome, hfind]; rfl
    have hgcs : getContainerStatus w.runtime s.containerID = Except.ok c.status := by
      rw [getContainerStatus, hfind]
    refine ⟨?_, ?_, ?_⟩
    · rintro ⟨hc, hs⟩
      constructor
      · simp [getScenarioStatus, hsid2, h, hex, hgcs, hc, hs, Except.map]
      · simpa [getScenarioStatus, hsid2, h, hex, hgcs, hc, hs] using hupd "running"
    · intro hcs
      have hnotboth : (c.status == "running" && s.status == "provisioning") = false := by
        rcases hcs with hc | hc <;> simp [hc]
      have hdemote : (c.status == "exited" || c.status == "stopped") = true := by
        rcases hcs with hc | hc <;> simp [hc]
      constructor
      · simp [getScenarioStatus, hsid2, h, hex, hgcs, hnotboth, hdemote, Except.map]
      · simpa [getScenarioStatus, hsid2, h, hex, hgcs, hnotboth, hdemote]
          using hupd "stopped"
    · intro hkeep1 hkeep2
      have hnotboth : (c.status == "running" && s.status == "provisioning") = false := by
        by_cases hc : c.status = "running"
        · have hs : s.status ≠ "provisioning" := fun hs => hkeep1 ⟨hc, hs⟩
          simp [hc, hs]
        · simp [hc]
      have hnotdem : (c.status == "exited" || c.status == "stopped") = false := by
        have h1 : c.status ≠ "exited" := fun hc => hkeep2 (Or.inl hc)
        have h2 : c.status ≠ "stopped" := fun hc => hkeep2 (Or.inr hc)
        simp [h1, h2]
      constructor
      · simp [getScenarioStatus, hsid2, h, hex, hgcs, hnotboth, hnotdem, Except.map]
      · simp only [getScenarioStatus, hsid2, h, hex, hgcs, hnotboth, hnotdem]
        simp [h]

/-- Witness for C1: a provisioning record whose container runs is promoted
to "running" both in the response and in the store. -/
theorem getScenarioStatus_reconciliation_wit :
    (getScenarioStatus
        { store := [{ scenarioID := "scn-4", userID := "u1", scenarioType := "go",
                      containerID := "c4", status := "provisioning",
                      terminalPort := 3001, createdAt := 0, updatedAt := 0 }],
          runtime := [{ id := "c4", status := "running", ports := [] }] }
        "scn-4" 11).1.map StatusResponse.status = Except.ok "running" ∧
    findScenario (getScenarioStatus
        { store := [{ scenarioID := "scn-4", userID := "u1", scenarioType := "go",
                      containerID := "c4", status := "provisioning",
                      terminalPort := 3001, createdAt := 0, updatedAt := 0 }],
          runtime := [{ id := "c4", status := "running", ports := [] }] }
        "scn-4" 11).2.store "scn-4" =
      some { scenarioID := "scn-4", userID := "u1", scenarioType := "go",
             containerID := "c4", status := "running", terminalPort := 3001,
             createdAt := 0, updatedAt := 11 } :=
  ((getScenarioStatus_reconciliation _ "scn-4" _ 11 (by decide) (by rfl)).2
    { id := "c4", status := "running", ports := [] } (by rfl)).1 ⟨rfl, rfl⟩

/-! ### Claim C4: the orphan sweep -/

theorem containerExists_filter_le (rt : List Container) (p : Container → Bool)
    (cid : String) (h : containerExists rt cid = false) :
    containerExists (rt.filter p) cid = false := by
  simp only [containerExists, List.any_eq_false] at h ⊢
  intro c hc
  exact h c (List.mem_of_mem_filter hc)

theorem orphanStep_eq (refs stopFaults : List String) (rt : List Container)
    (c : Container) :
    orphanStep refs stopFaults rt c =
      if refs.contains c.id ∨ stopFaults.contains c.id then rt
      else rt.filter (fun d => d.id != c.id) := by
  unfold orphanStep isScenarioContainer
  by_cases m1 : c.id ∈ refs
  · simp [m1]
  · by_cases m2 : c.id ∈ stopFaults
    · simp [m1, m2]
    · by_cases hex : containerExists rt c.id = true
      · simp [m1, m2, stopContainer, hex, removeContainer,
          containerExists_filter_self]
      · have hex2 : containerExists rt c.id = false := by simpa using hex
        simp [m1, m2, stopContainer, hex2,
          filter_ne_of_not_exists rt c.id hex2]

theorem orphanStep_not_exists (refs stopFaults : List String)
    (rt : List Container) (c : Container) (cid : String)
    (h : containerExists rt cid = false) :
    containerExists (orphanStep refs stopFaults rt c) cid = false := by
  rw [orphanStep_eq]
  split
  · exact h
  · exact containerExists_filter_le rt _ cid h

theorem orphanStep_preserves_ref (refs stopFaults : List String)
    (rt : List Container) (c d : Container)
    (hd : d ∈ rt) (href : refs.contains d.id = true) :
    d ∈ orphanStep refs stopFaults rt c := by
  rw [orphanStep_eq]
  split
  · exact hd
  · next hcond =>
    refine List.mem_filter.mpr ⟨hd, ?_⟩
    have h1 : ¬ (refs.contains c.id = true) := fun hx => hcond (Or.inl hx)
    have hne : d.id ≠ c.id := fun he => h1 (he ▸ href)
    simpa using hne

theorem orphanFold_not_exists (refs stopFaults : List String)
    (l : List Container) :
    ∀ rt cid, containerExists rt cid = false →
    containerExists (l.foldl (orphanStep refs stopFaults) rt) cid = false := by
  induction l with
  | nil => intro rt cid h; exact h
  | cons c rest ih =>
    intro rt cid h
    exact ih _ _ (orphanStep_not_exists refs stopFaults rt c cid h)

theorem orphanFold_preserves_ref (refs stopFaults : List String)
    (l : List Container) :
    ∀ rt (d : Container), d ∈ rt → refs.contains d.id = true →
    d ∈ l.foldl (orphanStep refs stopFaults) rt := by
  induction l with
  | nil => intro rt d hd _; exact hd
  | cons c rest ih =>
    intro rt d hd href
    exact ih _ d (orphanStep_preserves_ref refs stopFaults rt c d hd href) href

/-- Claim C4: in every orphan sweep, a container listed by the runtime whose
id is not among the non-empty container_id values of the stored records is
stopped and removed (here: whenever its own StopContainer call is not among
the injected per-container failures, which never block the other
containers), while a container whose id is referenced by some record is left
untouched by the sweep. -/
theorem cleanupOrphans_spec (w : World) (stopFaults : List String) :
    (∀ c ∈ w.runtime,
      (getScenarioContainerIDs w.store).contains c.id = false →
      stopFaults.contains c.id = false →
      containerExists (cleanupOrphanedContainers w stopFaults).runtime c.id = false) ∧
    (∀ c ∈ w.runtime,
      (getScenarioContainerIDs w.store).contains c.id = true →
      c ∈ (cleanupOrphanedContainers w stopFaults).runtime) := by
  constructor
  · intro c hc href hfault
    obtain ⟨l1, l2, hsplit⟩ := List.append_of_mem hc
    show containerExists
      (w.runtime.foldl (orphanStep (getScenarioContainerIDs w.store) stopFaults) w.runtime)
      c.id = false
    conv_lhs =>
      rw [hsplit, List.foldl_append, List.foldl_cons]
    apply orphanFold_not_exists
    have hm1 : c.id ∉ getScenarioContainerIDs w.store := by simpa using href
    have hm2 : c.id ∉ stopFaults := by simpa using hfault
    rw [orphanStep_eq, if_neg (by simp [hm1, hm2])]
    exact containerExists_filter_self _ c.id
  · intro c hc href
    show c ∈ w.runtime.foldl (orphanStep (getScenarioContainerIDs w.store) stopFaults) w.runtime
    exact orphanFold_preserves_ref _ stopFaults w.runtime w.runtime c hc href

/-- Witness for C4: one orphaned and one referenced container; after the
sweep the orphan is gone and the referenced container is untouched. -/
theorem cleanupOrphans_spec_wit :
    containerExists
      (cleanupOrphanedContainers
        { store := [{ scenarioID := "scn-5", userID := "u1", scenarioType := "go",
                      containerID := "c5", status := "running", terminalPort := 3001,
                      createdAt := 0, updatedAt := 0 }],
          runtime := [{ id := "c5", status := "running", ports := [] },
                      { id := "orphan-1", status := "running", ports := [] }] }
        []).runtime "orphan-1" = false ∧
    ({ id := "c5", status := "running", ports := [] } : Container) ∈
      (cleanupOrphanedContainers
        { store := [{ scenarioID := "scn-5", userID := "u1", scenarioType := "go",
                      containerID := "c5", status := "running", terminalPort := 3001,
                      createdAt := 0, updatedAt := 0 }],
          runtime := [{ id := "c5", status := "running", ports := [] },
                      { id := "orphan-1", status := "running", ports := [] }] }
        []).runtime :=
  ⟨(cleanupOrphans_spec _ []).1 { id := "orphan-1", status := "running", ports := [] }
      (by decide) (by decide) (by decide),
   (cleanupOrphans_spec _ []).2 { id := "c5", status := "running", ports := [] }
      (by decide) (by decide)⟩

/-! ### Claim C3: the expired-scenario sweep -/

theorem stopContainer_snd_not_exists (rt : List Container) (cid x : String)
    (h : containerExists rt x = false) :
    containerExists (stopContainer rt cid).2 x = false := by
  unfold stopContainer
  split
  · exact containerExists_filter_le rt _ x h
  · exact h

theorem removeContainer_snd_not_exists (rt : List Container) (cid x : String)
    (h : containerExists rt x = false) :
    containerExists (removeContainer rt cid).2 x = false := by
  unfold removeContainer
  split
  · exact containerExists_filter_le rt _ x h
  · exact h

theorem removeContainer_snd_self (rt : List Container) (cid : String) :
    containerExists (removeContainer rt cid).2 cid = false := by
  unfold removeContainer
  split
  · exact containerExists_filter_self rt cid
  · next h => simpa using h

theorem cleanupScenarioRuntime_not_exists (rt : List Container) (s : Scenario)
    (x : String) (h : containerExists rt x = false) :
    containerExists (cleanupScenarioRuntime rt s) x = false := by
  unfold cleanupScenarioRuntime
  split
  · exact h
  · split
    · apply removeContainer_snd_not_exists
      split
      · split
        · exact stopContainer_snd_not_exists rt _ x h
        · exact h
      · exact h
    · exact h

theorem cleanupScenarioRuntime_removes (rt : List Container) (s : Scenario)
    (h : s.containerID ≠ "") :
    containerExists (cleanupScenarioRuntime rt s) s.containerID = false := by
  unfold cleanupScenarioRuntime
  rw [if_neg (by simpa using h)]
  split
  · exact removeContainer_snd_self _ s.containerID
  · next hex => simpa using hex

theorem sweepStep_store (now : Nat) (faults : List String) (wcur : World)
    (s : Scenario) (hfault : faults.contains s.scenarioID = false) :
    (sweepStep now faults wcur s).store =
      updateScenario wcur.store { s with status := "cleaned_up", updatedAt := now } := by
  unfold sweepStep cleanupScenario
  rw [if_neg (by simpa using hfault)]

theorem sweepStep_store_ids (now : Nat) (faults : List String) (wcur : World)
    (s : Scenario) :
    (sweepStep now faults wcur s).store.map Scenario.scenarioID =
      wcur.store.map Scenario.scenarioID := by
  unfold sweepStep cleanupScenario
  split
  · rfl
  · exact updateScenario_map_id wcur.store _

theorem sweepStep_find_ne (now : Nat) (faults : List String) (wcur : World)
    (s : Scenario) (sid : String) (hne : s.scenarioID ≠ sid) :
    findScenario (sweepStep now faults wcur s).store sid =
      findScenario wcur.store sid := by
  unfold sweepStep cleanupScenario
  split
  · rfl
  · exact findScenario_update_ne wcur.store _ sid hne

theorem sweepStep_runtime_not_exists (now : Nat) (faults : List String)
    (wcur : World) (s : Scenario) (x : String)
    (h : containerExists wcur.runtime x = false) :
    containerExists (sweepStep now faults wcur s).runtime x = false := by
  unfold sweepStep cleanupScenario
  split <;> exact cleanupScenarioRuntime_not_exists wcur.runtime s x h

theorem sweepFold_store_ids (now : Nat) (faults : List String)
    (l : List Scenario) :
    ∀ wcur : World, ((l.foldl (sweepStep now faults) wcur).store.map
      Scenario.scenarioID) = wcur.store.map Scenario.scenarioID := by
  induction l with
  | nil => intro wcur; rfl
  | cons t rest ih =>
    intro wcur
    rw [List.foldl_cons, ih, sweepStep_store_ids]

theorem sweepFold_find_ne (now : Nat) (faults : List String)
    (l : List Scenario) (sid : String) :
    ∀ wcur : World, (∀ t ∈ l, t.scenarioID ≠ sid) →
    findScenario (l.foldl (sweepStep now faults) wcur).store sid =
      findScenario wcur.store sid := by
  induction l with
  | nil => intro wcur _; rfl
  | cons t rest ih =>
    intro wcur hne
    rw [List.foldl_cons, ih _ (fun x hx => hne x (List.mem_cons_of_mem t hx)),
      sweepStep_find_ne now faults wcur t sid (hne t (List.mem_cons_self t rest))]

theorem sweepFold_runtime_not_exists (now : Nat) (faults : List String)
    (l : List Scenario) (x : String) :
    ∀ wcur : World, containerExists wcur.runtime x = false →
    containerExists (l.foldl (sweepStep now faults) wcur).runtime x = false := by
  induction l with
  | nil => intro wcur h; exact h
  | cons t rest ih =>
    intro wcur h
    exact ih _ (sweepStep_runtime_not_exists now faults wcur t x h)

theorem sweepStep_self_store (now : Nat) (faults : List String) (wcur : World)
    (s : Scenario) (hfault : faults.contains s.scenarioID = false)
    (hsome : (findScenario wcur.store s.scenarioID).isSome) :
    findScenario (sweepStep now faults wcur s).store s.scenarioID =
      some { s with status := "cleaned_up", updatedAt := now } := by
  rw [sweepStep_store now faults wcur s hfault]
  exact findScenario_update_self wcur.store
    { s with status := "cleaned_up", updatedAt := now } hsome

/-- Claim C3: in every expired sweep, every stored record with status
"running" or "provisioning" created before the cutoff (now minus the
configured max age) ends the cycle with persisted status "cleaned_up" and
its container, if any, removed from the runtime — whenever its own store
update is not among the injected per-record failures; failures injected for
other records never prevent this record from being processed (the fault list
is arbitrary). Scenario ids are assumed distinct, as they are in the store. -/
theorem cleanupExpired_spec (w : World) (cutoff now : Nat)
    (faults : List String) (s : Scenario)
    (hnodup : (w.store.map Scenario.scenarioID).Nodup)
    (hs : s ∈ w.store)
    (hst : s.status = "running" ∨ s.status = "provisioning")
    (hage : s.createdAt < cutoff)
    (hfault : faults.contains s.scenarioID = false) :
    (findScenario (cleanupExpiredScenarios w cutoff now faults).store
        s.scenarioID).map Scenario.status = some "cleaned_up" ∧
    (s.containerID ≠ "" →
      containerExists (cleanupExpiredScenarios w cutoff now faults).runtime
        s.containerID = false) := by
  have hexp : s ∈ w.store.filter (isExpired cutoff) := by
    refine List.mem_filter.mpr ⟨hs, ?_⟩
    rcases hst with h1 | h1 <;> simp [isExpired, hage, h1]
  obtain ⟨l1, l2, hsplit⟩ := List.append_of_mem hexp
  have hnodup2 : ((w.store.filter (isExpired cutoff)).map Scenario.scenarioID).Nodup :=
    hnodup.sublist ((List.filter_sublist w.store).map Scenario.scenarioID)
  rw [hsplit] at hnodup2
  have hl2 : ∀ t ∈ l2, t.scenarioID ≠ s.scenarioID := by
    have h1 : ((s :: l2).map Scenario.scenarioID).Nodup := by
      rw [List.map_append] at hnodup2
      exact hnodup2.of_append_right
    rw [List.map_cons, List.nodup_cons] at h1
    intro t ht he
    exact h1.1 (he ▸ List.mem_map_of_mem Scenario.scenarioID ht)
  have hrw : cleanupExpiredScenarios w cutoff now faults =
      l2.foldl (sweepStep now faults)
        (sweepStep now faults (l1.foldl (sweepStep now faults) w) s) := by
    unfold cleanupExpiredScenarios
    rw [hsplit, List.foldl_append, List.foldl_cons]
  have hsome : (findScenario (l1.foldl (sweepStep now faults) w).store
      s.scenarioID).isSome := by
    rw [findScenario_isSome_iff, sweepFold_store_ids]
    exact List.mem_map_of_mem Scenario.scenarioID hs
  constructor
  · rw [hrw, sweepFold_find_ne now faults l2 s.scenarioID _ hl2,
      sweepStep_self_store now faults _ s hfault hsome]
    rfl
  · intro hcid
    rw [hrw]
    apply sweepFold_runtime_not_exists
    unfold sweepStep cleanupScenario
    split <;> exact cleanupScenarioRuntime_removes _ s hcid

/-- Witness for C3: one expired running record with a live container; after
the sweep the record is "cleaned_up" and the container is gone. -/
theorem cleanupExpired_spec_wit :
    (findScenario (cleanupExpiredScenarios
        { store := [{ scenarioID := "scn-6", userID := "u1", scenarioType := "go",
                      containerID := "c6", status := "running", terminalPort := 3001,
                      createdAt := 50, updatedAt := 50 }],
          runtime := [{ id := "c6", status := "running", ports := [] }] }
        100 200 []).store "scn-6").map Scenario.status = some "cleaned_up" ∧
    ("c6" ≠ "" →
      containerExists (cleanupExpiredScenarios
        { store := [{ scenarioID := "scn-6", userID := "u1", scenarioType := "go",
                      containerID := "c6", status := "running", terminalPort := 3001,
                      createdAt := 50, updatedAt := 50 }],
          runtime := [{ id := "c6", status := "running", ports := [] }] }
        100 200 []).runtime "c6" = false) :=
  cleanupExpired_spec _ 100 200 []
    { scenarioID := "scn-6", userID := "u1", scenarioType := "go",
      containerID := "c6", status := "running", terminalPort := 3001,
      createdAt := 50, updatedAt := 50 }
    (by decide) (by decide) (Or.inl rfl) (by decide) (by decide)

end Devlab
